import Mathlib

/-!
Shallow embedding of the simulator-aware PCF8574 driver (the `pcf8574`
namespace of this repository: the Device class with mock/simulator support).

State is passed explicitly.  Transport and timing side effects
(`pins.i2cWriteNumber`, `pins.i2cReadNumber`, `basic.pause`) are recorded in
an event trace; hardware bus reads consume a pending list of response bytes.
JavaScript 32-bit bitwise NOT (`~x`) is modelled by `jsNot32`.
-/

namespace PCF8574

/-- JavaScript bitwise NOT restricted to the nonnegative 32-bit range:
for `x < 2^32`, `jsNot32 x` has exactly the complemented low 32 bits,
matching what `~x` produces before an `& 0xFF` style mask. -/
def jsNot32 (x : Nat) : Nat := (2 ^ 32 - 1) ^^^ (x % 2 ^ 32)

/-- One observable side effect of the driver: an I²C bus write of a byte to
an address, an I²C bus read from an address, or a `basic.pause` suspension. -/
inductive Event where
  | busWrite (addr val : Nat)
  | busRead (addr : Nat)
  | pause (ms : Nat)
deriving Repr, DecidableEq

/-- The fields of the `Device` class: bus address, shadow latch byte,
lazy-init flag, simulator flag, and the simulator input snapshot byte
(`simPort`). -/
structure Device where
  addr : Nat
  latch : Nat
  inited : Bool
  sim : Bool
  simPort : Nat
deriving Repr, DecidableEq

/-- A Device together with the trace of transport/timing events performed so
far (oldest first), the pending hardware bus read responses, and a ghost
counter of how many times `begin()` has run. -/
structure St where
  dev : Device
  trace : List Event
  bus : List Nat
  beginCount : Nat
deriving Repr, DecidableEq

/-- The constructor (`new Device(address)` / `pcf8574.create`): latch is the
power-on default 0xFF, not yet inited, `sim` is the transport-mode flag
resolved at construction, `simPort` starts released/high (0xFF).  `bus` is
the environment's stream of hardware bus read responses. -/
def create (address : Nat) (simMode : Bool) (bus : List Nat) : St :=
  { dev := { addr := address, latch := 0xFF, inited := false,
             sim := simMode, simPort := 0xFF },
    trace := [], bus := bus, beginCount := 0 }

/-- `private writeByte(b)`: an I²C write of `b & 0xFF` to the device address. -/
def writeByte (s : St) (b : Nat) : St :=
  { s with trace := s.trace ++ [Event.busWrite s.dev.addr (b &&& 0xFF)] }

/-- `begin()`: in simulator mode mirror the latch into `simPort`; in hardware
mode push the latch over the bus; then set `initialized` (here `inited`).
The ghost `beginCount` is incremented to record the invocation. -/
def beginOp (s : St) : St :=
  let s := { s with beginCount := s.beginCount + 1 }
  if s.dev.sim then
    { s with dev := { s.dev with simPort := s.dev.latch &&& 0xFF, inited := true } }
  else
    let s := writeByte s s.dev.latch
    { s with dev := { s.dev with inited := true } }

/-- `private ensureInit()`: lazily run `begin()` if not yet inited. -/
def ensureInit (s : St) : St :=
  if s.dev.inited then s else beginOp s

/-- `readPort()`: ensure init; in simulator mode return
`(simPort & latch) | (0 & forcedLowMask)` (output-low pins read as 0); in
hardware mode perform a bus read and mask the response to 8 bits. -/
def readPort (s : St) : Nat × St :=
  let s := ensureInit s
  if s.dev.sim then
    let forcedLowMask := jsNot32 s.dev.latch &&& 0xFF
    ((s.dev.simPort &&& s.dev.latch) ||| (0 &&& forcedLowMask), s)
  else
    ((s.bus.headD 0) &&& 0xFF,
     { s with trace := s.trace ++ [Event.busRead s.dev.addr],
              bus := s.bus.tail })

/-- `writePort(value)`: ensure init, set `latch = value & 0xFF`; in
simulator mode do nothing further, in hardware mode push the latch. -/
def writePort (s : St) (value : Nat) : St :=
  let s := ensureInit s
  let s := { s with dev := { s.dev with latch := value &&& 0xFF } }
  if s.dev.sim then s else writeByte s s.dev.latch

/-- The release phase of `readPin(pin)`: ensure init and, when the pin's
latch bit is 0, set it to 1 and (hardware mode only) push the latch.  This
is the state `readPin` is in just before it calls `readPort()`. -/
def readPinReleased (s : St) (pin : Nat) : St :=
  let s1 := ensureInit s
  let mask := 1 <<< pin
  if s1.dev.latch &&& mask = 0 then
    let s2 := { s1 with dev := { s1.dev with latch := s1.dev.latch ||| mask } }
    if s2.dev.sim then s2 else writeByte s2 s2.dev.latch
  else s1

/-- `readPin(pin)`: ensure init; if the pin's latch bit is 0, set it to 1
(release to input/pull-up) and push the latch in hardware mode; then read
the port and return whether the pin's bit is set. -/
def readPin (s : St) (pin : Nat) : Bool × St :=
  let s1 := ensureInit s
  let mask := 1 <<< pin
  let s2 :=
    if s1.dev.latch &&& mask = 0 then
      let s2a := { s1 with dev := { s1.dev with latch := s1.dev.latch ||| mask } }
      if s2a.dev.sim then s2a else writeByte s2a s2a.dev.latch
    else s1
  let r := readPort s2
  (decide (r.1 &&& mask ≠ 0), r.2)

/-- `writePin(pin, high)`: ensure init, set (`high = true`) or clear
(`high = false`, via `latch &= ~mask`) the pin's latch bit; in simulator
mode stop there, in hardware mode push the latch. -/
def writePin (s : St) (pin : Nat) (high : Bool) : St :=
  let s := ensureInit s
  let mask := 1 <<< pin
  let s :=
    if high then { s with dev := { s.dev with latch := s.dev.latch ||| mask } }
    else { s with dev := { s.dev with latch := s.dev.latch &&& jsNot32 mask } }
  if s.dev.sim then s else writeByte s s.dev.latch

/-- `basic.pause(ms)`: a cooperative suspension, recorded in the trace. -/
def pauseMs (s : St) (ms : Nat) : St :=
  { s with trace := s.trace ++ [Event.pause ms] }

/-- `buttonPressed(pin, debounceMs)`: read the pin; if high return false;
if low and `debounceMs > 0`, pause and return whether a re-read is still
low; if low and `debounceMs = 0` return true immediately. -/
def buttonPressed (s : St) (pin debounceMs : Nat) : Bool × St :=
  let r := readPin s pin
  if r.1 = false then
    if debounceMs > 0 then
      let r2 := readPin (pauseMs r.2 debounceMs) pin
      (decide (r2.1 = false), r2.2)
    else (true, r.2)
  else (false, r.2)

/-- `led(pin, on, activeLow)`: compute `driveLow = activeLow ? on : !on`
and write the pin to `!driveLow` (`isOn` renders the source's `on`
parameter, which is a reserved word here). -/
def led (s : St) (pin : Nat) (isOn activeLow : Bool) : St :=
  let driveLow := if activeLow then isOn else !isOn
  writePin s pin (!driveLow)

/-- `setInput(pin)`: write the pin high (input with pull-up). -/
def setInput (s : St) (pin : Nat) : St := writePin s pin true

/-- `setOutputLow(pin)`: write the pin low (actively sinks). -/
def setOutputLow (s : St) (pin : Nat) : St := writePin s pin false

/-- `setSimPinHigh(pin)`: simulator-only; set the pin's bit in `simPort`.
No effect in hardware mode.  Note: does not call `ensureInit`. -/
def setSimPinHigh (s : St) (pin : Nat) : St :=
  if s.dev.sim then
    { s with dev := { s.dev with simPort := s.dev.simPort ||| (1 <<< pin) } }
  else s

/-- `setSimPinLow(pin)`: simulator-only; clear the pin's bit in `simPort`
(via `simPort &= ~(1 << pin)`).  No effect in hardware mode.
Note: does not call `ensureInit`. -/
def setSimPinLow (s : St) (pin : Nat) : St :=
  if s.dev.sim then
    { s with dev := { s.dev with simPort := s.dev.simPort &&& jsNot32 (1 <<< pin) } }
  else s

/-- `isSimulator()`: query the host (`control.deviceDalVersion()`) inside a
try/catch; `v` stays `""` if the query throws or is unavailable; return
whether `v == "sim"`.  The host outcome is modelled as `Except Unit String`
(`Except.error` = the query raised / was unavailable). -/
def isSimulator (dalVersion : Except Unit String) : Bool :=
  let v := match dalVersion with
           | Except.ok w => w
           | Except.error _ => ""
  v == "sim"

/-- States reachable by constructing a Device and running any sequence of
its public operations (pins restricted to the `Pin` enum range 0..7). -/
inductive Reach : St → Prop where
  | create : ∀ a simMode bus, Reach (create a simMode bus)
  | beginOp : ∀ s, Reach s → Reach (beginOp s)
  | readPort : ∀ s, Reach s → Reach (readPort s).2
  | writePort : ∀ s v, Reach s → Reach (writePort s v)
  | readPin : ∀ s p, p < 8 → Reach s → Reach (readPin s p).2
  | writePin : ∀ s p b, p < 8 → Reach s → Reach (writePin s p b)
  | buttonPressed : ∀ s p d, p < 8 → Reach s → Reach (buttonPressed s p d).2
  | led : ∀ s p o a, p < 8 → Reach s → Reach (led s p o a)
  | setInput : ∀ s p, p < 8 → Reach s → Reach (setInput s p)
  | setOutputLow : ∀ s p, p < 8 → Reach s → Reach (setOutputLow s p)
  | setSimPinHigh : ∀ s p, p < 8 → Reach s → Reach (setSimPinHigh s p)
  | setSimPinLow : ∀ s p, p < 8 → Reach s → Reach (setSimPinLow s p)

/-! Basic facts about the embedded operations, shared by the claim proofs. -/

lemma shift_one (p : Nat) : 1 <<< p = 2 ^ p := by
  simpa using Nat.shiftLeft_eq 1 p

lemma and255 (x : Nat) : x &&& 255 = x % 256 := by
  have h := Nat.and_pow_two_sub_one_eq_mod x 8
  norm_num at h
  exact h

lemma testBit_jsNot32 (m p : Nat) (hm : m < 2 ^ 32) (hp : p < 32) :
    (jsNot32 m).testBit p = !m.testBit p := by
  unfold jsNot32
  rw [Nat.mod_eq_of_lt hm, Nat.testBit_xor, Nat.testBit_two_pow_sub_one]
  simp [hp]

lemma and_two_pow_ne_iff (v p : Nat) : (v &&& 2 ^ p ≠ 0) ↔ v.testBit p = true := by
  constructor
  · intro h
    by_contra hb
    apply h
    apply Nat.eq_of_testBit_eq
    intro i
    simp only [Nat.testBit_and, Nat.testBit_two_pow, Nat.zero_testBit]
    rcases eq_or_ne p i with rfl | hne
    · simp [Bool.not_eq_true] at hb
      simp [hb]
    · simp [hne]
  · intro h hz
    have hbit : (v &&& 2 ^ p).testBit p = true := by
      simp [Nat.testBit_and, h]
    rw [hz] at hbit
    simp at hbit

lemma beginOp_dev (s : St) :
    (beginOp s).dev.inited = true ∧ (beginOp s).dev.latch = s.dev.latch ∧
    (beginOp s).dev.sim = s.dev.sim ∧ (beginOp s).dev.addr = s.dev.addr := by
  unfold beginOp writeByte
  dsimp only
  split <;> simp

lemma beginOp_count (s : St) : (beginOp s).beginCount = s.beginCount + 1 := by
  unfold beginOp writeByte
  dsimp only
  split <;> simp

lemma ensureInit_of_inited (s : St) (h : s.dev.inited = true) : ensureInit s = s := by
  simp [ensureInit, h]

lemma ensureInit_of_uninit (s : St) (h : s.dev.inited = false) :
    ensureInit s = beginOp s := by
  simp [ensureInit, h]

lemma ensureInit_dev_inited (s : St) : (ensureInit s).dev.inited = true := by
  unfold ensureInit
  split
  · assumption
  · exact (beginOp_dev s).1

lemma writeByte_dev (s : St) (b : Nat) : (writeByte s b).dev = s.dev := rfl

lemma writeByte_count (s : St) (b : Nat) : (writeByte s b).beginCount = s.beginCount := rfl

lemma readPort_snd_dev (s : St) : (readPort s).2.dev = (ensureInit s).dev := by
  unfold readPort
  dsimp only
  split <;> rfl

lemma readPort_snd_count (s : St) :
    (readPort s).2.beginCount = (ensureInit s).beginCount := by
  unfold readPort
  dsimp only
  split <;> rfl

lemma readPinReleased_dev_inited (s : St) (p : Nat) :
    (readPinReleased s p).dev.inited = true := by
  unfold readPinReleased
  dsimp only
  split
  · split
    · exact ensureInit_dev_inited s
    · exact ensureInit_dev_inited s
  · exact ensureInit_dev_inited s

lemma readPinReleased_of_inited (s : St) (p : Nat) (h : s.dev.inited = true) :
    (readPinReleased s p).beginCount = s.beginCount ∧
    (readPinReleased s p).dev.sim = s.dev.sim := by
  unfold readPinReleased writeByte
  rw [ensureInit_of_inited s h]
  dsimp only
  split
  · split <;> simp_all
  · simp

lemma readPin_eq (s : St) (p : Nat) :
    readPin s p =
      (decide ((readPort (readPinReleased s p)).1 &&& (1 <<< p) ≠ 0),
       (readPort (readPinReleased s p)).2) := rfl

lemma readPin_snd_dev_inited (s : St) (p : Nat) :
    (readPin s p).2.dev.inited = true := by
  rw [readPin_eq]
  dsimp only
  rw [readPort_snd_dev, ensureInit_of_inited _ (readPinReleased_dev_inited s p)]
  exact readPinReleased_dev_inited s p

lemma readPin_count_of_inited (s : St) (p : Nat) (h : s.dev.inited = true) :
    (readPin s p).2.beginCount = s.beginCount := by
  rw [readPin_eq]
  dsimp only
  rw [readPort_snd_count, ensureInit_of_inited _ (readPinReleased_dev_inited s p)]
  exact (readPinReleased_of_inited s p h).1

lemma writePort_dev_inited (s : St) (v : Nat) :
    (writePort s v).dev.inited = true := by
  unfold writePort
  dsimp only
  split
  · exact ensureInit_dev_inited s
  · exact ensureInit_dev_inited s

lemma writePin_dev_inited (s : St) (p : Nat) (b : Bool) :
    (writePin s p b).dev.inited = true := by
  unfold writePin writeByte
  dsimp only
  split <;> split <;> simp [ensureInit_dev_inited s]

lemma buttonPressed_snd_dev_inited (s : St) (p d : Nat) :
    (buttonPressed s p d).2.dev.inited = true := by
  unfold buttonPressed
  dsimp only
  split
  · split
    · exact readPin_snd_dev_inited _ p
    · exact readPin_snd_dev_inited s p
  · exact readPin_snd_dev_inited s p

lemma setSimPinHigh_dev (s : St) (p : Nat) :
    (setSimPinHigh s p).dev.inited = s.dev.inited ∧
    (setSimPinHigh s p).dev.latch = s.dev.latch := by
  unfold setSimPinHigh
  split <;> simp

lemma setSimPinLow_dev (s : St) (p : Nat) :
    (setSimPinLow s p).dev.inited = s.dev.inited ∧
    (setSimPinLow s p).dev.latch = s.dev.latch := by
  unfold setSimPinLow
  split <;> simp

/-- On every reachable state, an uninitialized device still has its power-on
latch 0xFF: only operations that first run begin (and so initialize the
device) ever change the latch. -/
lemma reach_uninit_latch (s : St) (hr : Reach s) :
    s.dev.inited = false → s.dev.latch = 255 := by
  induction hr with
  | create a simMode bus => intro _; rfl
  | beginOp s hs ih => intro h; rw [(beginOp_dev s).1] at h; cases h
  | readPort s hs ih =>
      intro h
      rw [readPort_snd_dev, ensureInit_dev_inited] at h
      cases h
  | writePort s v hs ih => intro h; rw [writePort_dev_inited] at h; cases h
  | readPin s p hp hs ih => intro h; rw [readPin_snd_dev_inited] at h; cases h
  | writePin s p b hp hs ih => intro h; rw [writePin_dev_inited] at h; cases h
  | buttonPressed s p d hp hs ih =>
      intro h
      rw [buttonPressed_snd_dev_inited] at h
      cases h
  | led s p o a hp hs ih =>
      intro h
      rw [led, writePin_dev_inited] at h
      cases h
  | setInput s p hp hs ih => intro h; rw [setInput, writePin_dev_inited] at h; cases h
  | setOutputLow s p hp hs ih =>
      intro h
      rw [setOutputLow, writePin_dev_inited] at h
      cases h
  | setSimPinHigh s p hp hs ih =>
      intro h
      rw [(setSimPinHigh_dev s p).1] at h
      rw [(setSimPinHigh_dev s p).2]
      exact ih h
  | setSimPinLow s p hp hs ih =>
      intro h
      rw [(setSimPinLow_dev s p).1] at h
      rw [(setSimPinLow_dev s p).2]
      exact ih h

lemma pauseMs_dev (s : St) (ms : Nat) : (pauseMs s ms).dev = s.dev := rfl

lemma pauseMs_count (s : St) (ms : Nat) : (pauseMs s ms).beginCount = s.beginCount := rfl

lemma ensureInit_dev_sim (s : St) : (ensureInit s).dev.sim = s.dev.sim := by
  unfold ensureInit
  split
  · rfl
  · exact (beginOp_dev s).2.2.1

lemma beginOp_simPort_sim (s : St) (h : s.dev.sim = true) :
    (beginOp s).dev.simPort = s.dev.latch &&& 0xFF := by
  unfold beginOp
  simp [h]

lemma writePort_dev_fields (s : St) (v : Nat) :
    (writePort s v).dev.latch = v &&& 0xFF ∧
    (writePort s v).dev.sim = (ensureInit s).dev.sim ∧
    (writePort s v).dev.simPort = (ensureInit s).dev.simPort := by
  unfold writePort writeByte
  dsimp only
  split <;> simp

lemma writePort_count_of_inited (s : St) (v : Nat) (h : s.dev.inited = true) :
    (writePort s v).beginCount = s.beginCount := by
  unfold writePort writeByte
  rw [ensureInit_of_inited s h]
  dsimp only
  split <;> rfl

lemma writePin_latch (s : St) (p : Nat) (b : Bool) :
    (writePin s p b).dev.latch =
      if b then (ensureInit s).dev.latch ||| 1 <<< p
      else (ensureInit s).dev.latch &&& jsNot32 (1 <<< p) := by
  unfold writePin writeByte
  dsimp only
  split <;> split <;> simp

lemma writePin_dev_fields (s : St) (p : Nat) (b : Bool) :
    (writePin s p b).dev.simPort = (ensureInit s).dev.simPort ∧
    (writePin s p b).dev.addr = (ensureInit s).dev.addr ∧
    (writePin s p b).dev.sim = (ensureInit s).dev.sim := by
  unfold writePin writeByte
  dsimp only
  split <;> split <;> simp

lemma writePin_count_of_inited (s : St) (p : Nat) (b : Bool) (h : s.dev.inited = true) :
    (writePin s p b).beginCount = s.beginCount := by
  unfold writePin writeByte
  rw [ensureInit_of_inited s h]
  dsimp only
  split <;> split <;> rfl

lemma buttonPressed_count_of_inited (s : St) (p d : Nat) (h : s.dev.inited = true) :
    (buttonPressed s p d).2.beginCount = s.beginCount := by
  unfold buttonPressed
  dsimp only
  split
  · split
    · rw [readPin_count_of_inited _ p
          (by rw [pauseMs_dev]; exact readPin_snd_dev_inited s p),
        pauseMs_count, readPin_count_of_inited s p h]
    · exact readPin_count_of_inited s p h
  · exact readPin_count_of_inited s p h

/-! Trace extension without suspension: used to show that `readPin` never
pauses, so the non-pressed and zero-debounce paths of `buttonPressed` incur
no suspension. -/

/-- The state `t` extends the trace of `s` by events none of which is a
`pause` (cooperative suspension). -/
def NoPauseExt (s t : St) : Prop :=
  ∃ l, t.trace = s.trace ++ l ∧ ∀ ms, Event.pause ms ∉ l

lemma noPauseExt_refl (s : St) : NoPauseExt s s :=
  ⟨[], by simp, by simp⟩

lemma noPauseExt_trans {s t u : St} (h1 : NoPauseExt s t) (h2 : NoPauseExt t u) :
    NoPauseExt s u := by
  obtain ⟨l1, e1, n1⟩ := h1
  obtain ⟨l2, e2, n2⟩ := h2
  refine ⟨l1 ++ l2, by rw [e2, e1, List.append_assoc], ?_⟩
  intro ms hm
  rcases List.mem_append.mp hm with hx | hx
  · exact n1 ms hx
  · exact n2 ms hx

lemma writeByte_noPause (s : St) (b : Nat) : NoPauseExt s (writeByte s b) :=
  ⟨[Event.busWrite s.dev.addr (b &&& 0xFF)], rfl, by intro ms hm; simp at hm⟩

lemma beginOp_noPause (s : St) : NoPauseExt s (beginOp s) := by
  unfold beginOp writeByte
  dsimp only
  split
  · exact ⟨[], by simp, by simp⟩
  · exact ⟨[Event.busWrite s.dev.addr (s.dev.latch &&& 0xFF)], by simp,
      by intro ms hm; simp at hm⟩

lemma ensureInit_noPause (s : St) : NoPauseExt s (ensureInit s) := by
  unfold ensureInit
  split
  · exact noPauseExt_refl s
  · exact beginOp_noPause s

lemma readPort_noPause (s : St) : NoPauseExt s (readPort s).2 := by
  refine noPauseExt_trans (ensureInit_noPause s) ?_
  unfold readPort
  dsimp only
  split
  · exact noPauseExt_refl _
  · exact ⟨[Event.busRead (ensureInit s).dev.addr], rfl, by intro ms hm; simp at hm⟩

lemma readPinReleased_noPause (s : St) (p : Nat) : NoPauseExt s (readPinReleased s p) := by
  refine noPauseExt_trans (ensureInit_noPause s) ?_
  unfold readPinReleased
  dsimp only
  split
  · split
    · exact ⟨[], by simp, by simp⟩
    · exact ⟨[Event.busWrite (ensureInit s).dev.addr
          (((ensureInit s).dev.latch ||| 1 <<< p) &&& 0xFF)], by simp [writeByte],
        by intro ms hm; simp at hm⟩
  · exact noPauseExt_refl _

lemma readPin_noPause (s : St) (p : Nat) : NoPauseExt s (readPin s p).2 := by
  rw [readPin_eq]
  exact noPauseExt_trans (readPinReleased_noPause s p) (readPort_noPause _)

/-! Behaviour of the lazy init: each public operation run on an
uninitialized state coincides with running it after an explicit `begin`. -/

lemma uninit_readPort_eq (s : St) (h : s.dev.inited = false) :
    readPort s = readPort (beginOp s) := by
  unfold readPort
  rw [ensureInit_of_uninit s h, ensureInit_of_inited _ (beginOp_dev s).1]

lemma uninit_writePort_eq (s : St) (v : Nat) (h : s.dev.inited = false) :
    writePort s v = writePort (beginOp s) v := by
  unfold writePort
  rw [ensureInit_of_uninit s h, ensureInit_of_inited _ (beginOp_dev s).1]

lemma uninit_readPinReleased_eq (s : St) (p : Nat) (h : s.dev.inited = false) :
    readPinReleased s p = readPinReleased (beginOp s) p := by
  unfold readPinReleased
  rw [ensureInit_of_uninit s h, ensureInit_of_inited _ (beginOp_dev s).1]

lemma uninit_readPin_eq (s : St) (p : Nat) (h : s.dev.inited = false) :
    readPin s p = readPin (beginOp s) p := by
  rw [readPin_eq, readPin_eq, uninit_readPinReleased_eq s p h]

lemma uninit_writePin_eq (s : St) (p : Nat) (b : Bool) (h : s.dev.inited = false) :
    writePin s p b = writePin (beginOp s) p b := by
  unfold writePin
  rw [ensureInit_of_uninit s h, ensureInit_of_inited _ (beginOp_dev s).1]

lemma uninit_buttonPressed_eq (s : St) (p d : Nat) (h : s.dev.inited = false) :
    buttonPressed s p d = buttonPressed (beginOp s) p d := by
  unfold buttonPressed
  rw [uninit_readPin_eq s p h]

lemma two_pow_lt_two_pow_32 (p : Nat) (hp : p < 32) : 2 ^ p < 2 ^ 32 :=
  Nat.pow_lt_pow_right (by norm_num) hp

lemma decide_and_shift (v p : Nat) : decide (v &&& 1 <<< p ≠ 0) = v.testBit p := by
  rw [shift_one]
  cases hb : v.testBit p with
  | true => exact decide_eq_true ((and_two_pow_ne_iff v p).mpr hb)
  | false =>
      have hz : v &&& 2 ^ p = 0 := by
        by_contra hne
        rw [(and_two_pow_ne_iff v p).mp hne] at hb
        cases hb
      simp [hz]

lemma readPinReleased_latch_testBit (s : St) (p : Nat) :
    ((readPinReleased s p).dev.latch).testBit p = true := by
  unfold readPinReleased writeByte
  dsimp only
  split
  · split
    · simp [shift_one, Nat.testBit_two_pow_self]
    · simp [shift_one, Nat.testBit_two_pow_self]
  · next hne =>
      rw [shift_one] at hne
      exact (and_two_pow_ne_iff _ p).mp hne

/-! The claims. -/

/-- C1: for every 8-bit latch value and every 8-bit mock input snapshot, on
an initialized Device in mock mode, `readPort()` returns exactly the bitwise
AND of the mock input snapshot byte (`simPort`) and the latch byte: each bit
whose latch bit is 1 reads the snapshot bit, and each bit whose latch bit is
0 reads 0. -/
theorem C1_readPort_mock_is_and (s : St)
    (hsim : s.dev.sim = true) (hin : s.dev.inited = true)
    (hl : s.dev.latch < 256) (hsp : s.dev.simPort < 256) :
    (readPort s).1 = s.dev.simPort &&& s.dev.latch ∧
    ∀ i, ((readPort s).1).testBit i =
      (s.dev.simPort.testBit i && s.dev.latch.testBit i) := by
  have h1 : (readPort s).1 = s.dev.simPort &&& s.dev.latch := by
    unfold readPort
    rw [ensureInit_of_inited s hin]
    simp [hsim]
  exact ⟨h1, fun i => by rw [h1, Nat.testBit_and]⟩

/-- C1 witness: on an initialized mock-mode device, `readPort` returns
`simPort &&& latch`. -/
theorem C1_witness :
    (readPort (beginOp (create 0x20 true []))).1 =
      (beginOp (create 0x20 true [])).dev.simPort &&&
        (beginOp (create 0x20 true [])).dev.latch :=
  (C1_readPort_mock_is_and (beginOp (create 0x20 true []))
    (by decide) (by decide) (by decide) (by decide)).1

/-- C2 counterexample: on a freshly constructed mock-mode Device (no prior
operation has run), `setSimPinLow(0)` followed by `buttonPressed(0, 20)`
returns `false`, not `true` as the claim states: the lazy `begin()` run by
`buttonPressed`'s first `readPin` mirrors the latch (0xFF) back into
`simPort`, wiping the injected low level. -/
theorem C2_counterexample :
    (buttonPressed (setSimPinLow (create 0x20 true []) 0) 0 20).1 = false := by
  decide

/-- C2 amended: on a mock-mode Device on which `begin()` has already run,
`setSimPinLow(0)` then `buttonPressed(0, 20)` returns true; subsequently
`setSimPinHigh(0)` then `buttonPressed(0, 20)` returns false. -/
theorem C2_amended_begin_first :
    (buttonPressed (setSimPinLow (beginOp (create 0x20 true [])) 0) 0 20).1 = true ∧
    (buttonPressed
      (setSimPinHigh
        (buttonPressed (setSimPinLow (beginOp (create 0x20 true [])) 0) 0 20).2 0)
      0 20).1 = false := by
  decide

/-- C3 counterexample: `setSimPinLow` (and likewise `setSimPinHigh`) does
not trigger `begin()` when the Device is uninitialized: on a fresh mock-mode
Device it mutates the mock input snapshot while `begin` never runs
(`beginCount` stays 0 and the device stays uninitialized). -/
theorem C3_counterexample :
    (setSimPinLow (create 0x20 true []) 0).dev.simPort ≠
        (create 0x20 true []).dev.simPort ∧
    (setSimPinLow (create 0x20 true []) 0).beginCount = 0 ∧
    (setSimPinLow (create 0x20 true []) 0).dev.inited = false := by
  decide

/-- C3 amended: every public Device operation other than construction,
`begin` itself, and the simulator-only snapshot setters
(`setSimPinHigh`/`setSimPinLow`) — that is, `readPort`, `writePort`,
`readPin`, `writePin`, `setInput`, `setOutputLow`, `led`, `buttonPressed` —
when invoked on an uninitialized Device, behaves exactly as if `begin()` had
run first, and `begin` runs exactly once during the operation (the ghost
`beginCount` increases by exactly 1). -/
theorem C3_amended_lazy_begin_once (s : St) (p v d : Nat) (b isOn aLow : Bool)
    (h : s.dev.inited = false) :
    (readPort s = readPort (beginOp s) ∧
      (readPort s).2.beginCount = s.beginCount + 1) ∧
    (writePort s v = writePort (beginOp s) v ∧
      (writePort s v).beginCount = s.beginCount + 1) ∧
    (readPin s p = readPin (beginOp s) p ∧
      (readPin s p).2.beginCount = s.beginCount + 1) ∧
    (writePin s p b = writePin (beginOp s) p b ∧
      (writePin s p b).beginCount = s.beginCount + 1) ∧
    (setInput s p = setInput (beginOp s) p ∧
      (setInput s p).beginCount = s.beginCount + 1) ∧
    (setOutputLow s p = setOutputLow (beginOp s) p ∧
      (setOutputLow s p).beginCount = s.beginCount + 1) ∧
    (led s p isOn aLow = led (beginOp s) p isOn aLow ∧
      (led s p isOn aLow).beginCount = s.beginCount + 1) ∧
    (buttonPressed s p d = buttonPressed (beginOp s) p d ∧
      (buttonPressed s p d).2.beginCount = s.beginCount + 1) := by
  have hbi : (beginOp s).dev.inited = true := (beginOp_dev s).1
  have hbc : (beginOp s).beginCount = s.beginCount + 1 := beginOp_count s
  refine ⟨⟨uninit_readPort_eq s h, ?_⟩, ⟨uninit_writePort_eq s v h, ?_⟩,
    ⟨uninit_readPin_eq s p h, ?_⟩, ⟨uninit_writePin_eq s p b h, ?_⟩,
    ⟨?_, ?_⟩, ⟨?_, ?_⟩, ⟨?_, ?_⟩, ⟨uninit_buttonPressed_eq s p d h, ?_⟩⟩
  · rw [uninit_readPort_eq s h, readPort_snd_count,
      ensureInit_of_inited _ hbi, hbc]
  · rw [uninit_writePort_eq s v h, writePort_count_of_inited _ v hbi, hbc]
  · rw [uninit_readPin_eq s p h, readPin_count_of_inited _ p hbi, hbc]
  · rw [uninit_writePin_eq s p b h, writePin_count_of_inited _ p b hbi, hbc]
  · unfold setInput
    exact uninit_writePin_eq s p true h
  · unfold setInput
    rw [uninit_writePin_eq s p true h, writePin_count_of_inited _ p true hbi, hbc]
  · unfold setOutputLow
    exact uninit_writePin_eq s p false h
  · unfold setOutputLow
    rw [uninit_writePin_eq s p false h, writePin_count_of_inited _ p false hbi, hbc]
  · unfold led
    exact uninit_writePin_eq s p _ h
  · unfold led
    rw [uninit_writePin_eq s p _ h, writePin_count_of_inited _ p _ hbi, hbc]
  · rw [uninit_buttonPressed_eq s p d h, buttonPressed_count_of_inited _ p d hbi, hbc]

/-- C3 amended witness: on a fresh uninitialized device, `readPort` runs
`begin` exactly once. -/
theorem C3_witness :
    (readPort (create 0x20 true [])).2.beginCount =
      (create 0x20 true []).beginCount + 1 :=
  (C3_amended_lazy_begin_once (create 0x20 true []) 0 0 0 true true true rfl).1.2

/-- C4: for every pin p in 0..7 and every Device state (any latch value,
either transport mode; in particular every reachable state), immediately
after `readPin(p)` the pin's latch bit is 1, and the returned boolean is
whether bit p of the observed port value (the `readPort` result taken after
the release step) is set — the read is never forced low by this device's own
prior output-low drive. -/
theorem C4_readPin_latch_release (s : St) (p : Nat) (hp : p < 8) :
    ((readPin s p).2.dev.latch).testBit p = true ∧
    (readPin s p).1 = ((readPort (readPinReleased s p)).1).testBit p := by
  constructor
  · rw [readPin_eq]
    dsimp only
    rw [readPort_snd_dev, ensureInit_of_inited _ (readPinReleased_dev_inited s p)]
    exact readPinReleased_latch_testBit s p
  · rw [readPin_eq]
    dsimp only
    exact decide_and_shift _ p

/-- C4 witness at a fresh mock-mode device and pin 0. -/
theorem C4_witness :
    ((readPin (create 0x20 true []) 0).2.dev.latch).testBit 0 = true :=
  (C4_readPin_latch_release (create 0x20 true []) 0 (by decide)).1

/-- C5: for every 8-bit value v, on a reachable mock-mode Device whose mock
input snapshot byte is 0xFF, `writePort(v)` followed by `readPort()` returns
exactly v. -/
theorem C5_mock_roundtrip (s : St) (v : Nat) (hr : Reach s)
    (hsim : s.dev.sim = true) (hsp : s.dev.simPort = 255) (hv : v < 256) :
    (readPort (writePort s v)).1 = v := by
  have hfinal : ∀ t : St, t.dev.sim = true → t.dev.inited = true →
      t.dev.simPort = 255 → t.dev.latch = v &&& 0xFF → (readPort t).1 = v := by
    intro t hs hi hp hl
    unfold readPort
    rw [ensureInit_of_inited t hi]
    simp only [hs, if_true, Nat.zero_and, Nat.or_zero, hp, hl]
    rw [and255 v, Nat.mod_eq_of_lt hv, Nat.and_comm, and255, Nat.mod_eq_of_lt hv]
  apply hfinal
  · rw [(writePort_dev_fields s v).2.1, ensureInit_dev_sim]
    exact hsim
  · exact writePort_dev_inited s v
  · rw [(writePort_dev_fields s v).2.2]
    cases hini : s.dev.inited with
    | true => rw [ensureInit_of_inited s hini]; exact hsp
    | false =>
        rw [ensureInit_of_uninit s hini, beginOp_simPort_sim s hsim,
          reach_uninit_latch s hr hini]
        decide
  · exact (writePort_dev_fields s v).1

/-- C5 witness: round-trip of 0xA5 on an explicitly initialized mock-mode
device. -/
theorem C5_witness :
    (readPort (writePort (beginOp (create 0x20 true [])) 0xA5)).1 = 0xA5 :=
  C5_mock_roundtrip (beginOp (create 0x20 true [])) 0xA5
    (Reach.beginOp _ (Reach.create 0x20 true []))
    (by decide) (by decide) (by decide)

/-- C6: `buttonPressed(p, d)` first calls `readPin(p)`; if that read is high
it returns false immediately; if it is low and d = 0 it returns true
immediately; if it is low and d > 0 it suspends for d ms, re-reads the pin,
and returns true exactly when the second read is also low.  Moreover
`readPin` itself never suspends, so the first two paths incur no
suspension. -/
theorem C6_buttonPressed_debounce (s : St) (p d : Nat) :
    ((readPin s p).1 = true → buttonPressed s p d = (false, (readPin s p).2)) ∧
    ((readPin s p).1 = false → d = 0 →
      buttonPressed s p d = (true, (readPin s p).2)) ∧
    ((readPin s p).1 = false → 0 < d →
      buttonPressed s p d =
        (decide ((readPin (pauseMs (readPin s p).2 d) p).1 = false),
         (readPin (pauseMs (readPin s p).2 d) p).2)) ∧
    NoPauseExt s (readPin s p).2 := by
  refine ⟨?_, ?_, ?_, readPin_noPause s p⟩
  · intro h
    unfold buttonPressed
    simp [h]
  · intro h h0
    unfold buttonPressed
    simp [h, h0]
  · intro h hd
    unfold buttonPressed
    simp [h, hd]

/-- C6 witness: with the pin reading high on an initialized mock device,
`buttonPressed` returns false with no re-read and no pause. -/
theorem C6_witness :
    buttonPressed (beginOp (create 0x20 true [])) 0 20 =
      (false, (readPin (beginOp (create 0x20 true [])) 0).2) :=
  (C6_buttonPressed_debounce (beginOp (create 0x20 true [])) 0 20).1 (by decide)

/-- C7: on an initialized Device, `readPin(p)` performs the release-and-push
(setting latch bit p to 1 and, in hardware mode, a transport port write of
the updated latch) only when latch bit p is currently 0; when the bit is
already 1 the only transport event is the port read; and in mock mode
`readPin` performs no transport event at all. -/
theorem C7_readPin_transport_frame (s : St) (p : Nat) (h : s.dev.inited = true) :
    (s.dev.sim = true → (readPin s p).2.trace = s.trace) ∧
    (s.dev.sim = false → s.dev.latch &&& 1 <<< p = 0 →
      (readPin s p).2.trace =
        s.trace ++ [Event.busWrite s.dev.addr ((s.dev.latch ||| 1 <<< p) &&& 0xFF),
                    Event.busRead s.dev.addr] ∧
      (readPin s p).2.dev.latch = s.dev.latch ||| 1 <<< p) ∧
    (s.dev.sim = false → s.dev.latch &&& 1 <<< p ≠ 0 →
      (readPin s p).2.trace = s.trace ++ [Event.busRead s.dev.addr]) := by
  have hXi : (readPinReleased s p).dev.inited = true := readPinReleased_dev_inited s p
  refine ⟨?_, ?_, ?_⟩
  · intro hsim
    rw [readPin_eq]
    dsimp only
    unfold readPort
    rw [ensureInit_of_inited _ hXi]
    have hXs : (readPinReleased s p).dev.sim = true := by
      rw [(readPinReleased_of_inited s p h).2]
      exact hsim
    simp only [hXs, if_true]
    unfold readPinReleased
    rw [ensureInit_of_inited s h]
    dsimp only
    split
    · simp [hsim]
    · rfl
  · intro hsim hbit
    have hX : readPinReleased s p =
        writeByte { s with dev := { s.dev with latch := s.dev.latch ||| 1 <<< p } }
          (s.dev.latch ||| 1 <<< p) := by
      unfold readPinReleased
      rw [ensureInit_of_inited s h]
      dsimp only
      rw [if_pos hbit, if_neg (by simp [hsim])]
    rw [readPin_eq]
    dsimp only
    unfold readPort
    rw [ensureInit_of_inited _ hXi, hX]
    constructor
    · simp [writeByte, hsim, List.append_assoc]
    · simp [writeByte, hsim]
  · intro hsim hbit
    have hX : readPinReleased s p = s := by
      unfold readPinReleased
      rw [ensureInit_of_inited s h]
      dsimp only
      rw [if_neg hbit]
    rw [readPin_eq]
    dsimp only
    unfold readPort
    rw [ensureInit_of_inited _ hXi, hX]
    simp [hsim]

/-- C7 witness: hardware mode, latch bit already 1: only a bus read is
issued. -/
theorem C7_witness :
    (readPin (beginOp (create 0x20 false [0x55])) 0).2.trace =
      (beginOp (create 0x20 false [0x55])).trace ++
        [Event.busRead (beginOp (create 0x20 false [0x55])).dev.addr] :=
  (C7_readPin_transport_frame (beginOp (create 0x20 false [0x55])) 0
    (by decide)).2.2 (by decide) (by decide)

/-- C8: on an initialized Device, `led(p, true)` with the default
`activeLow = true` leaves latch bit p equal to 0 (driven low);
`led(p, true, false)` leaves latch bit p equal to 1 (released high); and
`led(p, false)` with `activeLow = true` leaves latch bit p equal to 1. -/
theorem C8_led_latch_bits (s : St) (p : Nat) (hp : p < 8)
    (h : s.dev.inited = true) :
    ((led s p true true).dev.latch).testBit p = false ∧
    ((led s p true false).dev.latch).testBit p = true ∧
    ((led s p false true).dev.latch).testBit p = true := by
  have hm : 1 <<< p % 2 ^ 32 = 1 <<< p := by
    rw [shift_one]
    exact Nat.mod_eq_of_lt (two_pow_lt_two_pow_32 p (by omega))
  have hfalse : ((writePin s p false).dev.latch).testBit p = false := by
    rw [writePin_latch]
    simp only [if_false, Bool.false_eq_true, Nat.testBit_and]
    rw [testBit_jsNot32 _ p (by rw [shift_one]; exact two_pow_lt_two_pow_32 p (by omega))
        (by omega)]
    rw [shift_one, Nat.testBit_two_pow_self]
    simp
  have htrue : ((writePin s p true).dev.latch).testBit p = true := by
    rw [writePin_latch]
    simp [shift_one, Nat.testBit_two_pow_self]
  exact ⟨hfalse, htrue, htrue⟩

/-- C8 witness at pin 0 of an initialized mock-mode device. -/
theorem C8_witness :
    ((led (beginOp (create 0x20 true [])) 0 true true).dev.latch).testBit 0 = false :=
  (C8_led_latch_bits (beginOp (create 0x20 true [])) 0 (by decide) (by decide)).1

/-- C9: the transport-mode query `isSimulator` never propagates a failure:
it is a total boolean function of the host outcome, it returns false
whenever the host query raised or was unavailable, it returns true when the
host reports "sim", and it returns true only in that case. -/
theorem C9_isSimulator_total (host : Except Unit String) :
    isSimulator (Except.error ()) = false ∧
    isSimulator (Except.ok "sim") = true ∧
    (isSimulator host = true → host = Except.ok "sim") := by
  refine ⟨rfl, rfl, ?_⟩
  intro h
  cases host with
  | error e => cases e; cases h
  | ok w =>
      unfold isSimulator at h
      dsimp only at h
      rw [eq_of_beq h]

/-- C9 witness: the only host outcome read as simulator is `ok "sim"`. -/
theorem C9_witness :
    isSimulator (Except.error ()) = false ∧
    (Except.ok "sim" : Except Unit String) = Except.ok "sim" :=
  ⟨(C9_isSimulator_total (Except.error ())).1,
   (C9_isSimulator_total (Except.ok "sim")).2.2 rfl⟩

/-- C10: on an initialized Device, `writePin(p, b)` sets latch bit p to b
and leaves every other latch bit, the mock input snapshot, the address, the
initialized flag, and the transport-mode flag unchanged. -/
theorem C10_writePin_frame (s : St) (p : Nat) (b : Bool) (hp : p < 8)
    (h : s.dev.inited = true) :
    ((writePin s p b).dev.latch).testBit p = b ∧
    (∀ q, q < 8 → q ≠ p →
      ((writePin s p b).dev.latch).testBit q = (s.dev.latch).testBit q) ∧
    (writePin s p b).dev.simPort = s.dev.simPort ∧
    (writePin s p b).dev.addr = s.dev.addr ∧
    (writePin s p b).dev.inited = s.dev.inited ∧
    (writePin s p b).dev.sim = s.dev.sim := by
  have hei : ensureInit s = s := ensureInit_of_inited s h
  have hnot32 : 1 <<< p < 2 ^ 32 := by
    rw [shift_one]
    exact two_pow_lt_two_pow_32 p (by omega)
  refine ⟨?_, ?_, ?_, ?_, ?_, ?_⟩
  · cases b with
    | true =>
        rw [writePin_latch]
        simp [shift_one, Nat.testBit_two_pow_self]
    | false =>
        rw [writePin_latch]
        simp only [if_false, Bool.false_eq_true, Nat.testBit_and]
        rw [testBit_jsNot32 _ p hnot32 (by omega), shift_one,
          Nat.testBit_two_pow_self]
        simp
  · intro q hq hqp
    cases b with
    | true =>
        rw [writePin_latch, if_pos rfl, hei, Nat.testBit_or, shift_one,
          Nat.testBit_two_pow_of_ne (fun he => hqp he.symm)]
        simp
    | false =>
        rw [writePin_latch, if_neg (by simp), hei, Nat.testBit_and,
          testBit_jsNot32 _ q hnot32 (by omega), shift_one,
          Nat.testBit_two_pow_of_ne (fun he => hqp he.symm)]
        simp
  · rw [(writePin_dev_fields s p b).1, hei]
  · rw [(writePin_dev_fields s p b).2.1, hei]
  · rw [writePin_dev_inited s p b, h]
  · rw [(writePin_dev_fields s p b).2.2, hei]

/-- C10 witness: writing pin 0 low on an initialized mock-mode device clears
latch bit 0. -/
theorem C10_witness :
    ((writePin (beginOp (create 0x20 true [])) 0 false).dev.latch).testBit 0 = false :=
  (C10_writePin_frame (beginOp (create 0x20 true [])) 0 false
    (by decide) (by decide)).1

end PCF8574
